import Mathlib

/-!
Shallow embedding of the line-crossing counting engine of `src/counter.py`
(class `LineCrossingCounter`), faithful to the Python source:

* pixel/normalized coordinates are exact rationals (`ℚ`);
* Python's fallible float division (`ZeroDivisionError` on a zero divisor)
  is modelled by `pydiv` returning `Except`;
* the numpy ROI mask is a shape-tagged boolean grid (a cell is "in ROI"
  iff its value is nonzero, i.e. `true` here);
* the `tracked_positions` dict is a partial map `ℤ → Option (ℚ × ℚ)`;
* constructor validation errors (`ValueError`) are `Except.error`.
Logging in the source has no observable effect on state or return values
and is not modelled.
-/

namespace HeadCountGuard

/-- Enum `CrossingCriteria` from `counter.py`. -/
inductive CrossingCriteria where
  | center
  | top
  | bottom
  | left
  | right
deriving DecidableEq, Repr

/-- Python `CrossingCriteria(value)` on a string: the value lookup of the enum,
which raises `ValueError` for an unknown value. -/
def CrossingCriteria.ofString (s : String) : Except String CrossingCriteria :=
  if s = "center" then .ok .center
  else if s = "top" then .ok .top
  else if s = "bottom" then .ok .bottom
  else if s = "left" then .ok .left
  else if s = "right" then .ok .right
  else .error "ValueError: not a valid CrossingCriteria"

/-- A bounding box `[x1, y1, x2, y2]` in pixel coordinates (`bbox[0..3]`
in the source). No geometric well-formedness is assumed. -/
structure BBox where
  x1 : ℚ
  y1 : ℚ
  x2 : ℚ
  y2 : ℚ
deriving DecidableEq, Repr

/-- One tracked object handed to `update`: the `track_id` and `bbox`
entries of the Python dict (the only keys `update` reads). -/
structure TrackedObject where
  track_id : ℤ
  bbox : BBox
deriving DecidableEq, Repr

/-- A numpy 2-D array used as ROI mask: its shape `(height, width)` and its
cells, `data y x` being the truthiness (nonzero-ness) of `mask[y, x]`.
Cells outside the shape are irrelevant: the counter only reads indices
clamped into the shape. -/
structure RoiMask where
  height : ℤ
  width : ℤ
  data : ℤ → ℤ → Bool

/-- The state of a `LineCrossingCounter` instance: its constructor-set
configuration plus the two mutable fields `count` and `tracked_positions`. -/
@[ext]
structure LineCrossingCounter where
  line_points : (ℚ × ℚ) × (ℚ × ℚ)
  in_side : String
  crossing_criteria : CrossingCriteria
  count : ℤ
  tracked_positions : ℤ → Option (ℚ × ℚ)
  frame_width : ℤ
  frame_height : ℤ
  roi_mask : Option RoiMask

namespace LineCrossingCounter

/-- Constructor `LineCrossingCounter.__init__`: canonicalizes the line so that
`p1.y ≤ p2.y`, validates `in_side` and the ROI-mask shape, and initializes
`count = 0` and an empty `tracked_positions` map. A raised `ValueError`
is an `Except.error`. Frame dimensions are NOT validated. -/
def init (line_points : (ℚ × ℚ) × (ℚ × ℚ)) (in_side : String)
    (frame_width frame_height : ℤ) (crossing_criteria : CrossingCriteria)
    (roi_mask : Option RoiMask) : Except String LineCrossingCounter :=
  let p1 := line_points.1
  let p2 := line_points.2
  let lp := if p1.2 ≤ p2.2 then (p1, p2) else (p2, p1)
  if in_side ≠ "left" ∧ in_side ≠ "right" then
    .error "ValueError: in_side must be either left or right"
  else
    match roi_mask with
    | some m =>
        if m.height ≠ frame_height ∨ m.width ≠ frame_width then
          .error "ValueError: ROI mask shape must match frame dimensions"
        else
          .ok ⟨lp, in_side, crossing_criteria, 0, fun _ => none,
               frame_width, frame_height, some m⟩
    | none =>
        .ok ⟨lp, in_side, crossing_criteria, 0, fun _ => none,
             frame_width, frame_height, none⟩

/-- Python division: raises `ZeroDivisionError` when the divisor is zero. -/
def pydiv (a b : ℚ) : Except String ℚ :=
  if b = 0 then .error "ZeroDivisionError: float division by zero"
  else .ok (a / b)

/-- Method `_get_center`: normalized center of a bounding box. The divisions by
the frame dimensions follow Python semantics (`pydiv`). -/
def getCenter (c : LineCrossingCounter) (bbox : BBox) :
    Except String (ℚ × ℚ) :=
  let center_x := (bbox.x1 + bbox.x2) / 2
  let center_y := (bbox.y1 + bbox.y2) / 2
  match pydiv center_x (c.frame_width : ℚ), pydiv center_y (c.frame_height : ℚ) with
  | .ok nx, .ok ny => .ok (nx, ny)
  | .error e, _ => .error e
  | _, .error e => .error e

/-- Pair the two normalized coordinates of an edge point, propagating a
division error (the error of the first division wins, as in Python). -/
def pairPoint (nx ny : Except String ℚ) : Except String (Option (ℚ × ℚ)) :=
  match nx, ny with
  | .ok nx, .ok ny => .ok (some (nx, ny))
  | .error e, _ => .error e
  | _, .error e => .error e

/-- Method `_get_edge_point`: normalized midpoint of the chosen bbox edge.
The `edge` argument is one of the four string literals the source passes. -/
def getEdgePoint (c : LineCrossingCounter) (bbox : BBox) (edge : String) :
    Except String (Option (ℚ × ℚ)) :=
  if edge = "top" then
    pairPoint (pydiv ((bbox.x1 + bbox.x2) / 2) (c.frame_width : ℚ))
      (pydiv bbox.y1 (c.frame_height : ℚ))
  else if edge = "bottom" then
    pairPoint (pydiv ((bbox.x1 + bbox.x2) / 2) (c.frame_width : ℚ))
      (pydiv bbox.y2 (c.frame_height : ℚ))
  else if edge = "left" then
    pairPoint (pydiv bbox.x1 (c.frame_width : ℚ))
      (pydiv ((bbox.y1 + bbox.y2) / 2) (c.frame_height : ℚ))
  else if edge = "right" then
    pairPoint (pydiv bbox.x2 (c.frame_width : ℚ))
      (pydiv ((bbox.y1 + bbox.y2) / 2) (c.frame_height : ℚ))
  else
    -- falls off the end of the Python function: returns None
    .ok none

/-- Method `_get_reference_point`: dispatch on the crossing criterion. Every
branch of the source passes a valid edge literal, so the result is always
a point when the divisions succeed; we keep the source's dispatch shape. -/
def getReferencePoint (c : LineCrossingCounter) (bbox : BBox) :
    Except String (ℚ × ℚ) :=
  match c.crossing_criteria with
  | .center => c.getCenter bbox
  | .top => (c.getEdgePoint bbox "top").map (fun o => o.getD (0, 0))
  | .bottom => (c.getEdgePoint bbox "bottom").map (fun o => o.getD (0, 0))
  | .left => (c.getEdgePoint bbox "left").map (fun o => o.getD (0, 0))
  | .right => (c.getEdgePoint bbox "right").map (fun o => o.getD (0, 0))

/-- The cross product `dx*(y - y1) - dy*(x - x1)` computed by
`_is_point_on_in_side`. -/
def crossProduct (c : LineCrossingCounter) (point : ℚ × ℚ) : ℚ :=
  let x := point.1
  let y := point.2
  let p1 := c.line_points.1
  let p2 := c.line_points.2
  let dx := p2.1 - p1.1
  let dy := p2.2 - p1.2
  dx * (y - p1.2) - dy * (x - p1.1)

/-- Method `_is_point_on_in_side`: `(cross_product > 0) == (self.in_side == "left")`. -/
def isPointOnInSide (c : LineCrossingCounter) (point : ℚ × ℚ) : Bool :=
  decide (0 < c.crossProduct point) == decide (c.in_side = "left")

/-- Python `int(...)` on a rational: truncation toward zero. -/
def pyint (q : ℚ) : ℤ :=
  if q < 0 then ⌈q⌉ else ⌊q⌋

/-- Method `_is_point_in_roi`: no mask means "inside"; otherwise the normalized
point is scaled back to pixels, truncated, clamped into the frame, and
looked up in the mask. -/
def isPointInRoi (c : LineCrossingCounter) (point : ℚ × ℚ) : Bool :=
  match c.roi_mask with
  | none => true
  | some m =>
      let x_pixel := pyint (point.1 * (c.frame_width : ℚ))
      let y_pixel := pyint (point.2 * (c.frame_height : ℚ))
      let x_pixel := max 0 (min x_pixel (c.frame_width - 1))
      let y_pixel := max 0 (min y_pixel (c.frame_height - 1))
      m.data y_pixel x_pixel

/-- The body of `update`'s per-object loop for one object whose reference
point `ref` has been computed: if the track has a prior position and both
points pass the ROI gate and their side classifications differ, adjust the
count (`+1` into the IN side, `-1` out of it); in every case overwrite the
stored position of the track with `ref`. -/
def step (c : LineCrossingCounter) (track_id : ℤ) (ref : ℚ × ℚ) :
    LineCrossingCounter :=
  let newCount :=
    match c.tracked_positions track_id with
    | some prev =>
        if c.isPointInRoi prev && c.isPointInRoi ref then
          if c.isPointOnInSide prev != c.isPointOnInSide ref then
            c.count + (if c.isPointOnInSide ref then 1 else -1)
          else c.count
        else c.count
    | none => c.count
  { c with
    count := newCount
    tracked_positions := fun j =>
      if j = track_id then some ref else c.tracked_positions j }

/-- The loop of `update` over the tracked objects, threading the mutated
counter; a `ZeroDivisionError` inside `_get_reference_point` aborts the
call as in Python. -/
def updateGo (c : LineCrossingCounter) :
    List TrackedObject → Except String LineCrossingCounter
  | [] => .ok c
  | obj :: rest =>
      match c.getReferencePoint obj.bbox with
      | .error e => .error e
      | .ok ref => updateGo (c.step obj.track_id ref) rest

/-- Method `update(tracked_objects)`: processes the objects in order and returns
the mutated counter together with the returned value `self.count`. -/
def update (c : LineCrossingCounter) (tracked_objects : List TrackedObject) :
    Except String (LineCrossingCounter × ℤ) :=
  (c.updateGo tracked_objects).map (fun c' => (c', c'.count))

/-- A sequence of `update` calls, one per frame, collecting the returned
count of each call (the harness a caller runs, not code of the source). -/
def runUpdates (c : LineCrossingCounter) :
    List (List TrackedObject) → Except String (LineCrossingCounter × List ℤ)
  | [] => .ok (c, [])
  | frame :: rest =>
      match c.update frame with
      | .error e => .error e
      | .ok (c', n) => (runUpdates c' rest).map (fun p => (p.1, n :: p.2))

/-- The count change contributed by one object, read off the source's
branch structure: `±1` on a gated side flip, `0` otherwise. -/
def stepDelta (c : LineCrossingCounter) (track_id : ℤ) (ref : ℚ × ℚ) : ℤ :=
  match c.tracked_positions track_id with
  | some prev =>
      if c.isPointInRoi prev && c.isPointInRoi ref then
        if c.isPointOnInSide prev != c.isPointOnInSide ref then
          if c.isPointOnInSide ref then 1 else -1
        else 0
      else 0
  | none => 0

/-- The counter that differs from `c` only in having `in_side = "right"`
(and the correspondingly negated count), used to state the LEFT/RIGHT
symmetry. -/
def mirror (c : LineCrossingCounter) : LineCrossingCounter :=
  { c with in_side := "right", count := -c.count }

/-- Counter `c` with an ROI mask installed, all other state unchanged. -/
def setRoiMask (c : LineCrossingCounter) (m : RoiMask) : LineCrossingCounter :=
  { c with roi_mask := some m }

/-- How many objects of the list have a previously recorded position at
the moment they are processed, `dom` being the set of track ids recorded
before the call (each processed object records its own id). -/
def countWithPrior (dom : ℤ → Bool) : List TrackedObject → ℕ
  | [] => 0
  | o :: rest =>
      (if dom o.track_id then 1 else 0)
        + countWithPrior (fun j => if j = o.track_id then true else dom j) rest

end LineCrossingCounter

/-! ### Concrete instances used to exercise the theorems -/

/-- A counter over a diagonal line with `in_side = "left"` on a 100×100
frame and no ROI, as produced by `init ((0,0),(1,1)) "left" 100 100
.center none`. -/
def demoLeft : LineCrossingCounter :=
  ⟨((0, 0), (1, 1)), "left", .center, 0, fun _ => none, 100, 100, none⟩

/-- A 10×10 counter with an ROI mask covering only the rows `y < 5` and a
recorded position for track 7 that lies outside the ROI. -/
def demoRoi : LineCrossingCounter :=
  ⟨((0, 0), (1, 1)), "left", .center, 0,
   fun j => if j = 7 then some (1/5, 4/5) else none, 10, 10,
   some ⟨10, 10, fun y _ => decide (y < 5)⟩⟩

/-- A tracked object for the demos: track 7, bbox `[2, 2, 4, 4]`. -/
def demoObj : TrackedObject := ⟨7, ⟨2, 2, 4, 4⟩⟩

/-- The single-track movement sequence of §8's diagonal-line scenario
(the bboxes of `tests/test_counter.py`): centers at normalized
x = 0.35, 0.475, 0.505, 0.75, 0.52, 0.48, 0.35 with y = 0.5. -/
def scenarioFrames : List (List TrackedObject) :=
  [[⟨1, ⟨300, 450, 400, 550⟩⟩], [⟨1, ⟨425, 450, 525, 550⟩⟩],
   [⟨1, ⟨455, 450, 555, 550⟩⟩], [⟨1, ⟨700, 450, 800, 550⟩⟩],
   [⟨1, ⟨470, 450, 570, 550⟩⟩], [⟨1, ⟨430, 450, 530, 550⟩⟩],
   [⟨1, ⟨300, 450, 400, 550⟩⟩]]

namespace LineCrossingCounter

/-! ### Basic lemmas about one processing step -/

variable (c : LineCrossingCounter) (i : ℤ) (r p : ℚ × ℚ) (b : BBox)

theorem step_line_points : (c.step i r).line_points = c.line_points := rfl

theorem step_in_side : (c.step i r).in_side = c.in_side := rfl

theorem step_crossing_criteria :
    (c.step i r).crossing_criteria = c.crossing_criteria := rfl

theorem step_frame_width : (c.step i r).frame_width = c.frame_width := rfl

theorem step_frame_height : (c.step i r).frame_height = c.frame_height := rfl

theorem step_roi_mask : (c.step i r).roi_mask = c.roi_mask := rfl

theorem step_tracked_positions (j : ℤ) :
    (c.step i r).tracked_positions j
      = if j = i then some r else c.tracked_positions j := rfl

theorem crossProduct_step : (c.step i r).crossProduct p = c.crossProduct p := rfl

theorem isPointOnInSide_step :
    (c.step i r).isPointOnInSide p = c.isPointOnInSide p := rfl

theorem isPointInRoi_step :
    (c.step i r).isPointInRoi p = c.isPointInRoi p := rfl

theorem getReferencePoint_step :
    (c.step i r).getReferencePoint b = c.getReferencePoint b := rfl

theorem step_count : (c.step i r).count = c.count + stepDelta c i r := by
  simp only [step, stepDelta]
  cases c.tracked_positions i with
  | none => simp
  | some prev =>
      by_cases hroi : (c.isPointInRoi prev && c.isPointInRoi r) = true
      · by_cases hflip : (c.isPointOnInSide prev != c.isPointOnInSide r) = true
        · simp [hroi, hflip]
        · simp [hroi, hflip]
      · simp [hroi]

theorem stepDelta_cases :
    stepDelta c i r = 0 ∨ stepDelta c i r = 1 ∨ stepDelta c i r = -1 := by
  cases h : c.tracked_positions i with
  | none => simp [stepDelta, h]
  | some prev =>
      simp only [stepDelta, h]
      by_cases hroi : (c.isPointInRoi prev && c.isPointInRoi r) = true
      · by_cases hflip : (c.isPointOnInSide prev != c.isPointOnInSide r) = true
        · by_cases hin : c.isPointOnInSide r = true
          · rw [if_pos hroi, if_pos hflip, if_pos hin]
            exact Or.inr (Or.inl rfl)
          · rw [if_pos hroi, if_pos hflip, if_neg hin]
            exact Or.inr (Or.inr rfl)
        · rw [if_pos hroi, if_neg hflip]
          exact Or.inl rfl
      · rw [if_neg hroi]
        exact Or.inl rfl

theorem stepDelta_of_unseen (h : c.tracked_positions i = none) :
    stepDelta c i r = 0 := by
  simp [stepDelta, h]

theorem stepDelta_of_outside_roi (prev : ℚ × ℚ)
    (hprev : c.tracked_positions i = some prev)
    (hout : c.isPointInRoi prev = false ∨ c.isPointInRoi r = false) :
    stepDelta c i r = 0 := by
  rcases hout with h | h <;> simp [stepDelta, hprev, h]

/-- When both frame dimensions are nonzero, every bounding box yields a
reference point (no division can fail). -/
theorem getReferencePoint_isOk (c : LineCrossingCounter) (b : BBox)
    (hw : c.frame_width ≠ 0) (hh : c.frame_height ≠ 0) :
    ∃ ref, c.getReferencePoint b = .ok ref := by
  have hw' : (c.frame_width : ℚ) ≠ 0 := by exact_mod_cast hw
  have hh' : (c.frame_height : ℚ) ≠ 0 := by exact_mod_cast hh
  cases hcrit : c.crossing_criteria <;>
    simp [getReferencePoint, hcrit, getCenter, getEdgePoint, pairPoint, pydiv,
      hw', hh', Except.map]

/-- Both `update` and its loop succeed when frame dimensions are nonzero. -/
theorem updateGo_isOk (objs : List TrackedObject) :
    ∀ c : LineCrossingCounter, c.frame_width ≠ 0 → c.frame_height ≠ 0 →
      ∃ c', c.updateGo objs = .ok c' := by
  induction objs with
  | nil => exact fun c _ _ => ⟨c, rfl⟩
  | cons o rest ih =>
      intro c hw hh
      obtain ⟨ref, href⟩ := getReferencePoint_isOk c o.bbox hw hh
      obtain ⟨c', hc'⟩ := ih (c.step o.track_id ref)
        (by rw [step_frame_width]; exact hw)
        (by rw [step_frame_height]; exact hh)
      exact ⟨c', by simp [updateGo, href, hc']⟩

theorem update_ok_elim (objs : List TrackedObject) (p : LineCrossingCounter × ℤ)
    (h : c.update objs = .ok p) :
    c.updateGo objs = .ok p.1 ∧ p.2 = p.1.count := by
  simp only [update] at h
  cases hgo : c.updateGo objs with
  | error e => rw [hgo] at h; cases h
  | ok c2 =>
      rw [hgo] at h
      simp only [Except.map, Except.ok.injEq] at h
      constructor
      · rw [← h]
      · rw [← h]

/-! ### Claim C2: `update` does not raise -/

/-- C2 (counterexample): the constructor does not validate frame
dimensions, so a counter over a 0×0 frame is constructed successfully, and
its `update` on a single well-formed object raises `ZeroDivisionError`
(returns an error instead of a count). -/
theorem c2_counterexample :
    (init ((0, 0), (1, 1)) "left" 0 0 .center none).map
      (fun c => (c.update [⟨1, ⟨0, 0, 10, 10⟩⟩]).isOk) = .ok false := by
  norm_num [init, update, updateGo, getReferencePoint, getCenter, pydiv,
    Except.map, Except.isOk, Except.toBool]

/-- C2 (amended): for every successfully constructed counter whose frame
dimensions are nonzero, `update` never raises: for every input list of
tracked objects, however malformed geometrically, it returns a count. -/
theorem c2_theorem (c : LineCrossingCounter) (objs : List TrackedObject)
    (hw : c.frame_width ≠ 0) (hh : c.frame_height ≠ 0) :
    (c.update objs).isOk = true := by
  obtain ⟨c', hc'⟩ := updateGo_isOk objs c hw hh
  simp [update, hc', Except.isOk, Except.toBool, Except.map]

/-- C2 (witness): the amended theorem on the 100×100 demo counter with a
single object. -/
theorem c2_witness : (demoLeft.update [demoObj]).isOk = true :=
  c2_theorem demoLeft [demoObj] (by decide) (by decide)

/-! ### Claim C3: ROI gating suppresses counting but not tracking -/

/-- C3: with an ROI mask configured and a prior position recorded for the
object's track, if the prior or the current reference point is outside the
ROI then the `update` call returns the unchanged count and the internal
count is unchanged, yet the current reference point overwrites the stored
position of that track. -/
theorem c3_theorem (c : LineCrossingCounter) (m : RoiMask) (o : TrackedObject)
    (prev ref : ℚ × ℚ)
    (hm : c.roi_mask = some m)
    (hprev : c.tracked_positions o.track_id = some prev)
    (href : c.getReferencePoint o.bbox = .ok ref)
    (hout : c.isPointInRoi prev = false ∨ c.isPointInRoi ref = false) :
    ∃ c', c.update [o] = .ok (c', c.count) ∧ c'.count = c.count ∧
      c'.tracked_positions o.track_id = some ref := by
  have hcount : (c.step o.track_id ref).count = c.count := by
    rw [step_count, stepDelta_of_outside_roi c o.track_id ref prev hprev hout,
      add_zero]
  refine ⟨c.step o.track_id ref, ?_, hcount, ?_⟩
  · simp [update, updateGo, href, hcount, Except.map]
  · simp [step_tracked_positions]

/-- C3 (witness): on `demoRoi`, track 7's stored prior (0.2, 0.8) maps to
pixel row 8, outside the mask rows `y < 5`; updating with `demoObj`
(reference point (0.3, 0.3)) leaves the count at 0 and overwrites the
stored position. -/
theorem c3_witness :
    ∃ c', demoRoi.update [demoObj] = .ok (c', demoRoi.count) ∧
      c'.count = demoRoi.count ∧
      c'.tracked_positions demoObj.track_id = some (3/10, 3/10) :=
  c3_theorem demoRoi ⟨10, 10, fun y _ => decide (y < 5)⟩ demoObj (1/5, 4/5)
    (3/10, 3/10) rfl (by norm_num [demoRoi, demoObj])
    (by norm_num [getReferencePoint, getCenter, pydiv, demoRoi, demoObj])
    (Or.inl (by norm_num [isPointInRoi, pyint, demoRoi]))

/-! ### Claim C5: first sighting never changes the count -/

/-- C5: for a track id with no recorded position, a single `update` call
containing only that track returns the unchanged count, leaves the
internal count unchanged, and records the observed reference point as the
track's position, wherever that point lies. -/
theorem c5_theorem (c : LineCrossingCounter) (o : TrackedObject) (ref : ℚ × ℚ)
    (hnew : c.tracked_positions o.track_id = none)
    (href : c.getReferencePoint o.bbox = .ok ref) :
    ∃ c', c.update [o] = .ok (c', c.count) ∧ c'.count = c.count ∧
      c'.tracked_positions o.track_id = some ref := by
  have hcount : (c.step o.track_id ref).count = c.count := by
    rw [step_count, stepDelta_of_unseen c o.track_id ref hnew, add_zero]
  refine ⟨c.step o.track_id ref, ?_, hcount, ?_⟩
  · simp [update, updateGo, href, hcount, Except.map]
  · simp [step_tracked_positions]

/-- C5 (witness): `demoLeft` has never seen track 7; one call with
`demoObj` returns count 0 and records (0.03, 0.03). -/
theorem c5_witness :
    ∃ c', demoLeft.update [demoObj] = .ok (c', demoLeft.count) ∧
      c'.count = demoLeft.count ∧
      c'.tracked_positions demoObj.track_id = some (3/100, 3/100) :=
  c5_theorem demoLeft demoObj (3/100, 3/100) rfl
    (by norm_num [getReferencePoint, getCenter, pydiv, demoLeft, demoObj])

/-! ### Claim C9: permutation invariance across distinct track ids -/

theorem getEdgePoint_top_eq :
    c.getEdgePoint b "top"
      = pairPoint (pydiv ((b.x1 + b.x2) / 2) (c.frame_width : ℚ))
          (pydiv b.y1 (c.frame_height : ℚ)) := rfl

theorem getEdgePoint_bottom_eq :
    c.getEdgePoint b "bottom"
      = pairPoint (pydiv ((b.x1 + b.x2) / 2) (c.frame_width : ℚ))
          (pydiv b.y2 (c.frame_height : ℚ)) := rfl

theorem getEdgePoint_left_eq :
    c.getEdgePoint b "left"
      = pairPoint (pydiv b.x1 (c.frame_width : ℚ))
          (pydiv ((b.y1 + b.y2) / 2) (c.frame_height : ℚ)) := rfl

theorem getEdgePoint_right_eq :
    c.getEdgePoint b "right"
      = pairPoint (pydiv b.x2 (c.frame_width : ℚ))
          (pydiv ((b.y1 + b.y2) / 2) (c.frame_height : ℚ)) := rfl

/-- Whether `_get_reference_point` raises depends only on the counter's
configuration (which frame dimension is zero), never on the bounding box,
and the raised message is the fixed `ZeroDivisionError` one. -/
theorem getReferencePoint_error_congr (b1 b2 : BBox) (e : String)
    (h : c.getReferencePoint b1 = .error e) :
    c.getReferencePoint b2 = .error e := by
  by_cases hw : (c.frame_width : ℚ) = 0 <;>
    by_cases hhz : (c.frame_height : ℚ) = 0 <;>
      cases hcrit : c.crossing_criteria <;>
        simp_all [getReferencePoint, getCenter, getEdgePoint_top_eq,
          getEdgePoint_bottom_eq, getEdgePoint_left_eq, getEdgePoint_right_eq,
          pairPoint, pydiv, Except.map]

theorem stepDelta_step_ne (i1 i2 : ℤ) (r1 r2 : ℚ × ℚ) (hne : i2 ≠ i1) :
    stepDelta (c.step i1 r1) i2 r2 = stepDelta c i2 r2 := by
  have hpos : (c.step i1 r1).tracked_positions i2 = c.tracked_positions i2 := by
    rw [step_tracked_positions, if_neg hne]
  cases hp : c.tracked_positions i2 with
  | none => simp [stepDelta, hpos, hp]
  | some prev =>
      simp only [stepDelta, hpos, hp, isPointInRoi_step, isPointOnInSide_step]

/-- Two steps on distinct track ids commute. -/
theorem step_comm (i1 i2 : ℤ) (r1 r2 : ℚ × ℚ) (hne : i1 ≠ i2) :
    (c.step i1 r1).step i2 r2 = (c.step i2 r2).step i1 r1 := by
  refine LineCrossingCounter.ext rfl rfl rfl ?_ ?_ rfl rfl rfl
  · rw [step_count, step_count, step_count, step_count,
      stepDelta_step_ne c i1 i2 r1 r2 (Ne.symm hne),
      stepDelta_step_ne c i2 i1 r2 r1 hne]
    ring
  · funext j
    rw [step_tracked_positions, step_tracked_positions, step_tracked_positions,
      step_tracked_positions]
    by_cases h1 : j = i1 <;> by_cases h2 : j = i2
    · exact absurd (h1.symm.trans h2) hne
    · simp [h1, h2, hne, Ne.symm hne]
    · simp [h1, h2, hne, Ne.symm hne]
    · simp [h1, h2]

theorem updateGo_perm {l1 l2 : List TrackedObject} (hperm : l1.Perm l2) :
    ∀ c : LineCrossingCounter, (l1.map TrackedObject.track_id).Nodup →
      c.updateGo l1 = c.updateGo l2 := by
  induction hperm with
  | nil => intro c _; rfl
  | cons x p ih =>
      intro c hnd
      simp only [List.map_cons, List.nodup_cons] at hnd
      simp only [updateGo]
      cases href : c.getReferencePoint x.bbox with
      | error e => rfl
      | ok ref =>
          dsimp only
          exact ih (c.step x.track_id ref) hnd.2
  | swap x y l =>
      intro c hnd
      simp only [List.map_cons, List.nodup_cons, List.mem_cons] at hnd
      have hne : y.track_id ≠ x.track_id := fun h => hnd.1 (Or.inl h)
      simp only [updateGo]
      cases hgy : c.getReferencePoint y.bbox with
      | error e =>
          cases hgx : c.getReferencePoint x.bbox with
          | error e2 =>
              have h2 : c.getReferencePoint y.bbox = .error e2 :=
                getReferencePoint_error_congr c x.bbox y.bbox e2 hgx
              rw [hgy] at h2
              cases h2
              rfl
          | ok rx =>
              simp only [updateGo, getReferencePoint_step, hgy]
      | ok ry =>
          cases hgx : c.getReferencePoint x.bbox with
          | error e =>
              simp only [updateGo, getReferencePoint_step, hgx]
          | ok rx =>
              simp only [updateGo, getReferencePoint_step, hgx, hgy]
              rw [step_comm c y.track_id x.track_id ry rx hne]
  | trans p1 p2 ih1 ih2 =>
      intro c hnd
      rw [ih1 c hnd, ih2 c ((p1.map TrackedObject.track_id).nodup hnd)]

/-- C9: within one `update` call whose tracked objects carry pairwise
distinct track ids, the returned count does not depend on the order of the
input list. -/
theorem c9_theorem (c : LineCrossingCounter) (objs1 objs2 : List TrackedObject)
    (hperm : objs1.Perm objs2)
    (hnd : (objs1.map TrackedObject.track_id).Nodup) :
    (c.update objs1).map Prod.snd = (c.update objs2).map Prod.snd := by
  simp only [update, updateGo_perm hperm c hnd]

/-- C9 (witness): two distinct tracks presented in both orders give the
same returned count. -/
theorem c9_witness :
    (demoLeft.update [⟨1, ⟨0, 0, 2, 2⟩⟩, ⟨2, ⟨4, 4, 6, 6⟩⟩]).map Prod.snd
      = (demoLeft.update [⟨2, ⟨4, 4, 6, 6⟩⟩, ⟨1, ⟨0, 0, 2, 2⟩⟩]).map Prod.snd :=
  c9_theorem demoLeft _ _
    (List.Perm.swap (⟨2, ⟨4, 4, 6, 6⟩⟩ : TrackedObject)
      (⟨1, ⟨0, 0, 2, 2⟩⟩ : TrackedObject) [])
    (by decide)

/-! ### Claim C10: per-call count-change bound -/

theorem updateGo_count_bound (objs : List TrackedObject) :
    ∀ c c' : LineCrossingCounter, c.updateGo objs = .ok c' →
      (c'.count - c.count).natAbs
        ≤ countWithPrior (fun j => (c.tracked_positions j).isSome) objs := by
  induction objs with
  | nil =>
      intro c c' h
      cases h
      simp [countWithPrior]
  | cons o rest ih =>
      intro c c' h
      simp only [updateGo] at h
      cases href : c.getReferencePoint o.bbox with
      | error e => rw [href] at h; cases h
      | ok ref =>
          rw [href] at h
          have hbound := ih (c.step o.track_id ref) c' h
          have hdomeq : (fun j => ((c.step o.track_id ref).tracked_positions j).isSome)
              = fun j => if j = o.track_id then true
                  else (c.tracked_positions j).isSome := by
            funext j
            rw [step_tracked_positions]
            by_cases hj : j = o.track_id <;> simp [hj]
          rw [hdomeq] at hbound
          have hcnt := step_count c o.track_id ref
          simp only [countWithPrior]
          by_cases hdom : (c.tracked_positions o.track_id).isSome = true
          · rcases stepDelta_cases c o.track_id ref with hδ | hδ | hδ <;>
              rw [hδ] at hcnt <;> rw [if_pos hdom] <;> omega
          · have hnone : c.tracked_positions o.track_id = none := by
              cases hcp : c.tracked_positions o.track_id
              · rfl
              · rw [hcp] at hdom; simp at hdom
            have hδ := stepDelta_of_unseen c o.track_id ref hnone
            rw [hδ] at hcnt
            rw [if_neg hdom]
            omega

/-- C10: the absolute change of the running count across one `update` call
is at most the number of input objects whose track id had a recorded
position at the moment that object was processed (ids recorded earlier in
the same call included). -/
theorem c10_theorem (c : LineCrossingCounter) (objs : List TrackedObject)
    (c' : LineCrossingCounter) (r : ℤ) (h : c.update objs = .ok (c', r)) :
    (c'.count - c.count).natAbs
      ≤ countWithPrior (fun j => (c.tracked_positions j).isSome) objs := by
  obtain ⟨hgo, -⟩ := update_ok_elim c objs (c', r) h
  exact updateGo_count_bound objs c c' hgo

/-- C10 (witness): the bound evaluated on one call of the demo counter
(no priors recorded, the change is 0 ≤ 0). -/
theorem c10_witness :
    ((demoLeft.step demoObj.track_id (3/100, 3/100)).count
        - demoLeft.count).natAbs
      ≤ countWithPrior (fun j => (demoLeft.tracked_positions j).isSome)
          [demoObj] :=
  c10_theorem demoLeft [demoObj] (demoLeft.step demoObj.track_id (3/100, 3/100))
    (demoLeft.step demoObj.track_id (3/100, 3/100)).count
    (by norm_num [update, updateGo, getReferencePoint, getCenter, pydiv,
      demoLeft, demoObj, Except.map])

/-! ### Claim C1: boundary tie-break of the side classifier -/

/-- C1 (counterexample): for the counter constructed with `in_side =
"right"` over the line (0,0)–(1,1), the point (1/2, 1/2) has cross product
exactly 0 and is nonetheless classified as ON the IN side, refuting the
claim that an on-line point is NOT on the IN side for every InSide value. -/
theorem c1_counterexample :
    (init ((0, 0), (1, 1)) "right" 100 100 .center none).map
      (fun c => (c.crossProduct (1/2, 1/2), c.isPointOnInSide (1/2, 1/2)))
      = .ok (0, true) := by
  norm_num [init, LineCrossingCounter.crossProduct, isPointOnInSide, Except.map]
  decide

/-- C1 (amended): a reference point whose cross product with the line is
exactly 0 is classified NOT on the IN side precisely when `in_side` is
"left"; in particular for `in_side = "right"` it is classified as ON the
IN side. -/
theorem c1_theorem (c : LineCrossingCounter) (p : ℚ × ℚ)
    (h : c.crossProduct p = 0) :
    c.isPointOnInSide p = false ↔ c.in_side = "left" := by
  simp [isPointOnInSide, h]

/-- C1 (witness): the amended theorem evaluated on `demoLeft` at the
on-line point (1/2, 1/2). -/
theorem c1_witness :
    demoLeft.isPointOnInSide (1/2, 1/2) = false ↔ demoLeft.in_side = "left" :=
  c1_theorem demoLeft (1/2, 1/2)
    (by norm_num [demoLeft, LineCrossingCounter.crossProduct])

/-! ### Claim C6: the diagonal-line scenario -/

/-- C6: a counter with CENTER criterion, InSide=LEFT, frame 1000×1000,
line (0.2,0.2)–(0.8,0.8) and no ROI, fed the seven single-track frames of
`scenarioFrames` (bbox centers at normalized x = 0.35, 0.475, 0.505, 0.75,
0.52, 0.48, 0.35, y = 0.5), returns the counts [0, 0, -1, -1, -1, 0, 0]. -/
theorem c6_theorem :
    (init ((0.2, 0.2), (0.8, 0.8)) "left" 1000 1000 .center none).map
      (fun c => (c.runUpdates scenarioFrames).map Prod.snd)
      = .ok (.ok [0, 0, -1, -1, -1, 0, 0]) := by
  norm_num [init, runUpdates, update, updateGo, step, getReferencePoint,
    getCenter, pydiv, isPointInRoi, isPointOnInSide,
    LineCrossingCounter.crossProduct, scenarioFrames, Except.map]

/-! ### Claim C4: LEFT/RIGHT symmetry -/

theorem mirror_tracked_positions :
    (mirror c).tracked_positions = c.tracked_positions := rfl

theorem mirror_count : (mirror c).count = -c.count := rfl

theorem mirror_in_side : (mirror c).in_side = "right" := rfl

theorem isPointInRoi_mirror : (mirror c).isPointInRoi p = c.isPointInRoi p := rfl

theorem crossProduct_mirror :
    (mirror c).crossProduct p = c.crossProduct p := rfl

theorem getReferencePoint_mirror :
    (mirror c).getReferencePoint b = c.getReferencePoint b := rfl

theorem isPointOnInSide_mirror (h : c.in_side = "left") :
    (mirror c).isPointOnInSide p = !c.isPointOnInSide p := by
  have hr : (("right" : String) = "left") = False := by
    simp only [eq_iff_iff, iff_false]
    decide
  simp only [isPointOnInSide, crossProduct_mirror, mirror_in_side, h, hr]
  cases decide (0 < c.crossProduct p) <;> simp

theorem stepDelta_mirror (h : c.in_side = "left") :
    stepDelta (mirror c) i r = - stepDelta c i r := by
  cases hp : c.tracked_positions i with
  | none => simp [stepDelta, mirror_tracked_positions, hp]
  | some prev =>
      simp only [stepDelta, mirror_tracked_positions, hp, isPointInRoi_mirror,
        isPointOnInSide_mirror _ _ h]
      cases hroi : (c.isPointInRoi prev && c.isPointInRoi r) <;>
        cases h1 : c.isPointOnInSide prev <;>
          cases h2 : c.isPointOnInSide r <;>
            simp [hroi, h1, h2]

theorem step_mirror (h : c.in_side = "left") :
    (mirror c).step i r = mirror (c.step i r) := by
  refine LineCrossingCounter.ext rfl rfl rfl ?_ rfl rfl rfl rfl
  rw [step_count, mirror_count, mirror_count, step_count,
    stepDelta_mirror c i r h]
  ring

theorem step_in_side_eq (s : String) (h : c.in_side = s) :
    (c.step i r).in_side = s := h

theorem updateGo_mirror (objs : List TrackedObject) :
    ∀ c : LineCrossingCounter, c.in_side = "left" →
      (mirror c).updateGo objs = (c.updateGo objs).map mirror := by
  induction objs with
  | nil => intro c _; rfl
  | cons o rest ih =>
      intro c h
      simp only [updateGo, getReferencePoint_mirror]
      cases href : c.getReferencePoint o.bbox with
      | error e => rfl
      | ok ref =>
          dsimp only
          rw [step_mirror c o.track_id ref h]
          exact ih (c.step o.track_id ref) (step_in_side_eq c o.track_id ref _ h)

theorem update_mirror (objs : List TrackedObject) (h : c.in_side = "left") :
    (mirror c).update objs
      = (c.update objs).map (fun p => (mirror p.1, -p.1.count)) := by
  simp only [update, updateGo_mirror objs c h]
  cases c.updateGo objs with
  | error e => rfl
  | ok c' => simp [Except.map, mirror_count]

theorem updateGo_in_side (objs : List TrackedObject) :
    ∀ c c' : LineCrossingCounter, c.updateGo objs = .ok c' →
      c'.in_side = c.in_side := by
  induction objs with
  | nil =>
      intro c c' h
      cases h
      rfl
  | cons o rest ih =>
      intro c c' h
      simp only [updateGo] at h
      cases href : c.getReferencePoint o.bbox with
      | error e => rw [href] at h; cases h
      | ok ref =>
          rw [href] at h
          exact ih (c.step o.track_id ref) c' h

theorem runUpdates_mirror (frames : List (List TrackedObject)) :
    ∀ c : LineCrossingCounter, c.in_side = "left" →
      (mirror c).runUpdates frames
        = (c.runUpdates frames).map
            (fun p => (mirror p.1, p.2.map (fun z => -z))) := by
  induction frames with
  | nil => intro c _; rfl
  | cons f rest ih =>
      intro c h
      simp only [runUpdates, update_mirror c f h]
      cases hup : c.update f with
      | error e => rfl
      | ok p =>
          obtain ⟨hgo, hcnt⟩ := update_ok_elim c f p hup
          have hside : p.1.in_side = "left" :=
            (updateGo_in_side f c p.1 hgo).trans h
          dsimp only [Except.map]
          rw [ih p.1 hside]
          cases runUpdates p.1 rest with
          | error e => rfl
          | ok q => simp [Except.map, hcnt]

/-- Inverting a successful no-ROI construction: the resulting counter is
the canonical record and `in_side` was valid. -/
theorem init_none_inv (lp : (ℚ × ℚ) × (ℚ × ℚ)) (s : String) (fw fh : ℤ)
    (crit : CrossingCriteria) (c : LineCrossingCounter)
    (h : init lp s fw fh crit none = .ok c) :
    c = ⟨if lp.1.2 ≤ lp.2.2 then (lp.1, lp.2) else (lp.2, lp.1),
         s, crit, 0, fun _ => none, fw, fh, none⟩ ∧
      (s = "left" ∨ s = "right") := by
  simp only [init] at h
  by_cases h1 : s ≠ "left" ∧ s ≠ "right"
  · rw [if_pos h1] at h; cases h
  · rw [if_neg h1] at h
    cases h
    push_neg at h1
    refine ⟨rfl, ?_⟩
    by_cases hl : s = "left"
    · exact Or.inl hl
    · exact Or.inr (h1 hl)

/-- Inverting a successful construction with an ROI mask: the resulting
counter is the canonical record, `in_side` was valid and the mask shape
matches the frame. -/
theorem init_some_inv (lp : (ℚ × ℚ) × (ℚ × ℚ)) (s : String) (fw fh : ℤ)
    (crit : CrossingCriteria) (m : RoiMask) (c : LineCrossingCounter)
    (h : init lp s fw fh crit (some m) = .ok c) :
    c = ⟨if lp.1.2 ≤ lp.2.2 then (lp.1, lp.2) else (lp.2, lp.1),
         s, crit, 0, fun _ => none, fw, fh, some m⟩ ∧
      (s = "left" ∨ s = "right") ∧ m.height = fh ∧ m.width = fw := by
  simp only [init] at h
  by_cases h1 : s ≠ "left" ∧ s ≠ "right"
  · rw [if_pos h1] at h; cases h
  · rw [if_neg h1] at h
    by_cases h2 : m.height ≠ fh ∨ m.width ≠ fw
    · rw [if_pos h2] at h; cases h
    · rw [if_neg h2] at h
      cases h
      push_neg at h1 h2
      refine ⟨rfl, ?_, h2.1, h2.2⟩
      by_cases hl : s = "left"
      · exact Or.inl hl
      · exact Or.inr (h1 hl)

/-- C4: two counters constructed identically except that one has
InSide=LEFT and the other InSide=RIGHT, fed the same sequence of `update`
calls, return counts that are arithmetic negations of each other, call for
call (and the calls fail identically, if ever). -/
theorem c4_theorem (lp : (ℚ × ℚ) × (ℚ × ℚ)) (fw fh : ℤ)
    (crit : CrossingCriteria) (roi : Option RoiMask)
    (frames : List (List TrackedObject)) (cL cR : LineCrossingCounter)
    (hL : init lp "left" fw fh crit roi = .ok cL)
    (hR : init lp "right" fw fh crit roi = .ok cR) :
    (cR.runUpdates frames).map Prod.snd
      = (cL.runUpdates frames).map (fun p => p.2.map (fun z => -z)) := by
  have hcR : cR = mirror cL ∧ cL.in_side = "left" := by
    cases roi with
    | none =>
        obtain ⟨hL1, -⟩ := init_none_inv lp "left" fw fh crit cL hL
        obtain ⟨hR1, -⟩ := init_none_inv lp "right" fw fh crit cR hR
        subst hL1
        subst hR1
        exact ⟨by simp [mirror], rfl⟩
    | some m =>
        obtain ⟨hL1, -, -, -⟩ := init_some_inv lp "left" fw fh crit m cL hL
        obtain ⟨hR1, -, -, -⟩ := init_some_inv lp "right" fw fh crit m cR hR
        subst hL1
        subst hR1
        exact ⟨by simp [mirror], rfl⟩
  rw [hcR.1, runUpdates_mirror frames cL hcR.2]
  cases cL.runUpdates frames with
  | error e => rfl
  | ok p => simp [Except.map]

/-- C4 (witness): the theorem applied to the §8 scenario counters (LEFT
and RIGHT over the diagonal line, on `scenarioFrames`). -/
theorem c4_witness :
    ((⟨((0.2, 0.2), (0.8, 0.8)), "right", .center, 0, fun _ => none,
        1000, 1000, none⟩ : LineCrossingCounter).runUpdates
          scenarioFrames).map Prod.snd
      = ((⟨((0.2, 0.2), (0.8, 0.8)), "left", .center, 0, fun _ => none,
            1000, 1000, none⟩ : LineCrossingCounter).runUpdates
              scenarioFrames).map (fun p => p.2.map (fun z => -z)) :=
  c4_theorem ((0.2, 0.2), (0.8, 0.8)) 1000 1000 .center none scenarioFrames
    _ _ (by norm_num [init]) (by norm_num [init])

/-! ### Claim C8: no-ROI vs full-frame-ROI equivalence -/

theorem setRoiMask_tracked_positions (m : RoiMask) :
    (setRoiMask c m).tracked_positions = c.tracked_positions := rfl

theorem setRoiMask_count (m : RoiMask) : (setRoiMask c m).count = c.count := rfl

theorem isPointOnInSide_setRoiMask (m : RoiMask) :
    (setRoiMask c m).isPointOnInSide p = c.isPointOnInSide p := rfl

theorem getReferencePoint_setRoiMask (m : RoiMask) :
    (setRoiMask c m).getReferencePoint b = c.getReferencePoint b := rfl

theorem isPointInRoi_setRoiMask (m : RoiMask) (hnone : c.roi_mask = none)
    (hall : ∀ y x, m.data y x = true) :
    (setRoiMask c m).isPointInRoi p = c.isPointInRoi p := by
  simp [isPointInRoi, setRoiMask, hnone, hall]

theorem stepDelta_setRoiMask (m : RoiMask) (hnone : c.roi_mask = none)
    (hall : ∀ y x, m.data y x = true) :
    stepDelta (setRoiMask c m) i r = stepDelta c i r := by
  cases hp : c.tracked_positions i with
  | none => simp [stepDelta, setRoiMask_tracked_positions, hp]
  | some prev =>
      simp only [stepDelta, setRoiMask_tracked_positions, hp,
        isPointInRoi_setRoiMask _ _ _ hnone hall,
        isPointOnInSide_setRoiMask]

theorem step_setRoiMask (m : RoiMask) (hnone : c.roi_mask = none)
    (hall : ∀ y x, m.data y x = true) :
    (setRoiMask c m).step i r = setRoiMask (c.step i r) m := by
  refine LineCrossingCounter.ext rfl rfl rfl ?_ rfl rfl rfl rfl
  rw [step_count, setRoiMask_count, setRoiMask_count, step_count,
    stepDelta_setRoiMask c i r m hnone hall]

theorem updateGo_setRoiMask (m : RoiMask) (hall : ∀ y x, m.data y x = true)
    (objs : List TrackedObject) :
    ∀ c : LineCrossingCounter, c.roi_mask = none →
      (setRoiMask c m).updateGo objs
        = (c.updateGo objs).map (fun c' => setRoiMask c' m) := by
  induction objs with
  | nil => intro c _; rfl
  | cons o rest ih =>
      intro c hnone
      simp only [updateGo, getReferencePoint_setRoiMask]
      cases href : c.getReferencePoint o.bbox with
      | error e => rfl
      | ok ref =>
          dsimp only
          rw [step_setRoiMask c o.track_id ref m hnone hall]
          exact ih (c.step o.track_id ref) hnone

theorem update_setRoiMask (m : RoiMask) (hall : ∀ y x, m.data y x = true)
    (objs : List TrackedObject) (hnone : c.roi_mask = none) :
    (setRoiMask c m).update objs
      = (c.update objs).map (fun p => (setRoiMask p.1 m, p.2)) := by
  simp only [update, updateGo_setRoiMask m hall objs c hnone]
  cases c.updateGo objs with
  | error e => rfl
  | ok c' => simp [Except.map, setRoiMask_count]

theorem updateGo_roi_mask (objs : List TrackedObject) :
    ∀ c c' : LineCrossingCounter, c.updateGo objs = .ok c' →
      c'.roi_mask = c.roi_mask := by
  induction objs with
  | nil =>
      intro c c' h
      cases h
      rfl
  | cons o rest ih =>
      intro c c' h
      simp only [updateGo] at h
      cases href : c.getReferencePoint o.bbox with
      | error e => rw [href] at h; cases h
      | ok ref =>
          rw [href] at h
          exact ih (c.step o.track_id ref) c' h

theorem runUpdates_setRoiMask (m : RoiMask) (hall : ∀ y x, m.data y x = true)
    (frames : List (List TrackedObject)) :
    ∀ c : LineCrossingCounter, c.roi_mask = none →
      (setRoiMask c m).runUpdates frames
        = (c.runUpdates frames).map (fun p => (setRoiMask p.1 m, p.2)) := by
  induction frames with
  | nil => intro c _; rfl
  | cons f rest ih =>
      intro c hnone
      simp only [runUpdates, update_setRoiMask c m hall f hnone]
      cases hup : c.update f with
      | error e => rfl
      | ok p =>
          obtain ⟨hgo, -⟩ := update_ok_elim c f p hup
          have hroi : p.1.roi_mask = none :=
            (updateGo_roi_mask f c p.1 hgo).trans hnone
          dsimp only [Except.map]
          rw [ih p.1 hroi]
          cases runUpdates p.1 rest with
          | error e => rfl
          | ok q => simp [Except.map]

/-- C8: a counter constructed without an ROI mask and an otherwise
identical counter constructed with an everywhere-nonzero mask of shape
`(frame_height, frame_width)` return identical counts on every sequence of
`update` calls. -/
theorem c8_theorem (lp : (ℚ × ℚ) × (ℚ × ℚ)) (s : String) (fw fh : ℤ)
    (crit : CrossingCriteria) (c : LineCrossingCounter) (m : RoiMask)
    (hc : init lp s fw fh crit none = .ok c)
    (hh : m.height = fh) (hw : m.width = fw)
    (hall : ∀ y x, m.data y x = true)
    (frames : List (List TrackedObject)) :
    ∃ c2, init lp s fw fh crit (some m) = .ok c2 ∧
      (c2.runUpdates frames).map Prod.snd
        = (c.runUpdates frames).map Prod.snd := by
  obtain ⟨hc1, hs⟩ := init_none_inv lp s fw fh crit c hc
  have hvalid : ¬(s ≠ "left" ∧ s ≠ "right") := by
    rcases hs with h | h <;> simp [h]
  refine ⟨setRoiMask c m, ?_, ?_⟩
  · rw [hc1]
    simp only [init, setRoiMask]
    rw [if_neg hvalid, if_neg (by simp [hh, hw])]
  · rw [runUpdates_setRoiMask m hall frames c (by rw [hc1])]
    cases c.runUpdates frames with
    | error e => rfl
    | ok p => simp [Except.map]

/-- C8 (witness): the theorem on the demo 100×100 no-ROI counter against
the all-ones 100×100 mask, over a one-frame input. -/
theorem c8_witness :
    ∃ c2, init ((0, 0), (1, 1)) "left" 100 100 .center
        (some ⟨100, 100, fun _ _ => true⟩) = .ok c2 ∧
      (c2.runUpdates [[demoObj]]).map Prod.snd
        = (demoLeft.runUpdates [[demoObj]]).map Prod.snd :=
  c8_theorem ((0, 0), (1, 1)) "left" 100 100 .center demoLeft
    ⟨100, 100, fun _ _ => true⟩ (by norm_num [init, demoLeft]) rfl rfl
    (fun _ _ => rfl) [[demoObj]]

/-! ### Claim C7: construction-time validation -/

/-- C7: construction fails with an error when `in_side` is neither "left"
nor "right", and fails with an error when an ROI mask is supplied whose
shape differs from `(frame_height, frame_width)`; in both cases no counter
value is produced, so no `update` call is possible. -/
theorem c7_theorem :
    (∀ lp s fw fh crit roi, s ≠ "left" → s ≠ "right" →
        (init lp s fw fh crit roi).isOk = false) ∧
    (∀ lp s fw fh crit (m : RoiMask), m.height ≠ fh ∨ m.width ≠ fw →
        (init lp s fw fh crit (some m)).isOk = false) := by
  constructor
  · intro lp s fw fh crit roi h1 h2
    simp [init, h1, h2, Except.isOk, Except.toBool]
  · intro lp s fw fh crit m h
    by_cases hs : s ≠ "left" ∧ s ≠ "right"
    · simp [init, hs, Except.isOk, Except.toBool]
    · rcases h with h | h <;> simp [init, hs, h, Except.isOk, Except.toBool]

/-- C7 (witness): an invalid `in_side` value ("up") and a 5×10 mask on a
10×10 frame are both rejected at construction. -/
theorem c7_witness :
    (init ((0, 0), (1, 1)) "up" 10 10 .center none).isOk = false ∧
    (init ((0, 0), (1, 1)) "left" 10 10 .center
        (some ⟨5, 10, fun _ _ => true⟩)).isOk = false :=
  ⟨c7_theorem.1 ((0, 0), (1, 1)) "up" 10 10 .center none
      (by decide) (by decide),
   c7_theorem.2 ((0, 0), (1, 1)) "left" 10 10 .center ⟨5, 10, fun _ _ => true⟩
      (Or.inl (by decide))⟩

end LineCrossingCounter

end HeadCountGuard
